import Mathlib

/-!
Verification of the retro-sfx daemon core (src/retro-sfxd.py).

Shallow embedding: Python functions become Lean functions.  External
effects (hardware probes, subprocess results, random draws, the current
wall-clock time) become explicit parameters.  A Python call that may
raise is embedded as a value of PyOutcome (ok result / raised exception
name), and a fallible numeric parse returns Option.  Machine integers in
this program are small Python ints (arbitrary precision), so Nat and Int
model them exactly; Python floats are modelled by PyFloatVal (an exact
rational, an infinity, or NaN) with IEEE comparison semantics.  Python
strings are modelled by Lean String, manipulated through their character
lists so every definition evaluates by kernel reduction.
-/

namespace RetroSfx

/-! ### String primitives (Python str operations on character lists) -/

/-- str.split(sep) for a one-character separator: Python splits on every
occurrence and keeps empty pieces, so the empty string gives one empty
piece. -/
def splitOnChar (sep : Char) (cs : List Char) : List (List Char) :=
  cs.foldr (fun c acc =>
    match acc with
    | [] => [[c]]
    | cur :: rest => if c == sep then [] :: cur :: rest else (c :: cur) :: rest)
    [[]]

/-- ASCII whitespace recognised by str.strip for this program's inputs. -/
def isSpaceChar (c : Char) : Bool :=
  c == ' ' || c == '\t' || c == '\n' || c == '\r'

/-- str.strip(): drop leading and trailing whitespace. -/
def trimChars (cs : List Char) : List Char :=
  ((cs.dropWhile isSpaceChar).reverse.dropWhile isSpaceChar).reverse

/-- str.lower() on one ASCII character. -/
def charLower (c : Char) : Char :=
  if 65 ≤ c.toNat && c.toNat ≤ 90 then Char.ofNat (c.toNat + 32) else c

/-- str.upper() on one ASCII character. -/
def charUpper (c : Char) : Char :=
  if 97 ≤ c.toNat && c.toNat ≤ 122 then Char.ofNat (c.toNat - 32) else c

/-- Python string equality. -/
def strEq (a b : String) : Bool := a.data == b.data

/-- str.endsWith(suffix). -/
def strEndsWith (s suffix : String) : Bool :=
  List.isSuffixOf suffix.data s.data

/-- Outcome of running a Python call: a normal return value, or an
exception (identified by its class name) propagating out. -/
inductive PyOutcome (α : Type) where
  | ok (a : α) : PyOutcome α
  | raised (exn : String) : PyOutcome α
  deriving DecidableEq, Repr

/-- A config snapshot: Python dict modelled as an association list where
the first binding of a key is its current value. -/
abbrev Config := List (String × String)

/-- config.get(key, dflt) -/
def cfgGet (config : Config) (key dflt : String) : String :=
  match config.find? (fun kv => strEq kv.1 key) with
  | some kv => kv.2
  | none => dflt

/-- config.get(key) with no default (None when missing). -/
def cfgGetOpt (config : Config) (key : String) : Option String :=
  (config.find? (fun kv => strEq kv.1 key)).map (fun kv => kv.2)

/-- dict assignment config[key] = value: the new binding shadows any old
one. -/
def cfgSet (config : Config) (key value : String) : Config :=
  (key, value) :: config.filter (fun kv => !strEq kv.1 key)

/-- Digit characters to a number, most significant first. -/
def digitsToNat (cs : List Char) : Nat :=
  cs.foldl (fun n c => 10 * n + (c.toNat - 48)) 0

/-- Python int(s) on the strings this config uses: strip whitespace,
optional sign, ASCII decimal digits; None models the ValueError raised
on anything else. -/
def pyIntChars (cs0 : List Char) : Option Int :=
  let t := trimChars cs0
  let neg := t.take 1 == ['-']
  let core := if neg || t.take 1 == ['+'] then t.drop 1 else t
  if core.length ≠ 0 && core.all Char.isDigit then
    some (if neg then -(digitsToNat core : Int) else (digitsToNat core : Int))
  else
    none

/-- Python int(s) on a string. -/
def pyInt (s : String) : Option Int := pyIntChars s.data

/-- A Python float value as far as this program observes it: a finite
value (idealised as an exact rational rather than an IEEE double — the
program only compares config floats against 1, 100 and each other, and
no config-realistic literal sits within double-rounding distance of
those bounds), positive or negative infinity, or NaN. -/
inductive PyFloatVal where
  | finite (q : ℚ) : PyFloatVal
  | pinf : PyFloatVal
  | ninf : PyFloatVal
  | nan : PyFloatVal
  deriving DecidableEq, Repr

/-- IEEE comparison a < b against a finite bound: NaN compares false
with everything. -/
def pfLt (a : PyFloatVal) (b : ℚ) : Bool :=
  match a with
  | .finite q => q < b
  | .ninf => true
  | .pinf => false
  | .nan => false

/-- IEEE comparison a > b against a finite bound: NaN compares false
with everything. -/
def pfGt (a : PyFloatVal) (b : ℚ) : Bool :=
  match a with
  | .finite q => b < q
  | .ninf => false
  | .pinf => true
  | .nan => false

/-- Decimal mantissa of a float literal: digits with an optional single
decimal point and at least one digit; returns the integer formed by the
digits and the number of fraction digits. -/
def pyMantissa (m : List Char) : Option (Int × Nat) :=
  match splitOnChar '.' m with
  | [w] =>
    if w.length ≠ 0 && w.all Char.isDigit then
      some ((digitsToNat w : Int), 0)
    else none
  | [w, f] =>
    if (w.length ≠ 0 || f.length ≠ 0) && w.all Char.isDigit && f.all Char.isDigit then
      some ((digitsToNat w : Int) * (10 : Int) ^ f.length + (digitsToNat f : Int),
        f.length)
    else none
  | _ => none

/-- Exponent part of a float literal: optional sign and digits. -/
def pyExponent (ex : List Char) : Option Int :=
  let eneg := ex.take 1 == ['-']
  let ecore := if eneg || ex.take 1 == ['+'] then ex.drop 1 else ex
  if ecore.length ≠ 0 && ecore.all Char.isDigit then
    some (if eneg then -(digitsToNat ecore : Int) else (digitsToNat ecore : Int))
  else none

/-- The rational n · 10^(exp - fLen) for a mantissa with fLen fraction
digits and a decimal exponent. -/
def scaledRat (n : Int) (fLen : Nat) (exp : Int) : ℚ :=
  let scale := exp - (fLen : Int)
  if 0 ≤ scale then mkRat (n * (10 : Int) ^ scale.toNat) 1
  else mkRat n ((10 : Nat) ^ (-scale).toNat)

/-- Python float(s): strip whitespace, optional sign, then either
nan / inf / infinity in any letter case, or a decimal mantissa with an
optional e-exponent.  None models the ValueError raised on a malformed
string.  (Idealisations, none observable by this program's comparisons:
finite literals are exact rationals, a huge exponent does not overflow
to infinity, and digit-group underscores are not accepted.) -/
def pyFloat (s : String) : Option PyFloatVal :=
  let t := trimChars s.data
  let neg := t.take 1 == ['-']
  let core := if neg || t.take 1 == ['+'] then t.drop 1 else t
  let low := core.map charLower
  if low == "nan".data then some .nan
  else if low == "inf".data || low == "infinity".data then
    some (if neg then .ninf else .pinf)
  else
    match splitOnChar 'e' low with
    | [m] =>
      match pyMantissa m with
      | some nf => some (.finite (scaledRat (if neg then -nf.1 else nf.1) nf.2 0))
      | none => none
    | [m, ex] =>
      match pyMantissa m, pyExponent ex with
      | some nf, some exp =>
        some (.finite (scaledRat (if neg then -nf.1 else nf.1) nf.2 exp))
      | _, _ => none
    | _ => none

/-- to_minutes (line 132): HH:MM to minutes since midnight; None models
the ValueError/unpacking error on a malformed string. -/
def to_minutes (s : String) : Option Int :=
  match splitOnChar ':' s.data with
  | [h, m] =>
    match pyIntChars h, pyIntChars m with
    | some hh, some mm => some (hh * 60 + mm)
    | _, _ => none
  | _ => none

/-- in_quiet_hours (lines 138-154), with the current time passed in as
minutes since midnight (the code computes now.hour * 60 + now.minute).
None models an exception from parsing a malformed bound. -/
def in_quiet_hours (config : Config) (nowMin : Int) : Option Bool :=
  if cfgGetOpt config "QUIET_ENABLED" ≠ some "1" then
    some false
  else
    match to_minutes (cfgGet config "QUIET_START" "22:00"),
          to_minutes (cfgGet config "QUIET_END" "07:00") with
    | some startMin, some endMin =>
      if startMin = endMin then some true
      else if startMin < endMin then
        some (decide (startMin ≤ nowMin ∧ nowMin < endMin))
      else
        some (decide (nowMin ≥ startMin ∨ nowMin < endMin))
    | _, _ => none

/-- DEFAULT_CONFIG (lines 30-73), keys relevant to the verified core. -/
def DEFAULT_CONFIG : Config :=
  [("QUIET_ENABLED", "1"), ("QUIET_START", "22:00"), ("QUIET_END", "07:00"),
   ("OUTPUT_MODE", "random"), ("RANDOM_AUDIO_PERCENT", "70"),
   ("AUDIO_DEVICE", "default"), ("AUDIO_GAIN", "1.0"),
   ("LIMITER_ENABLED", "0"),
   ("WOPR_ENABLED_VARIATIONS", "all"), ("MAINFRAME_ENABLED_VARIATIONS", "all"),
   ("ALIENSTERM_ENABLED_VARIATIONS", "all"), ("MODEM_ENABLED_VARIATIONS", "all"),
   ("WOPR_INTERVAL_MIN", "0.003"), ("WOPR_INTERVAL_MAX", "0.025"),
   ("MAINFRAME_INTERVAL_MIN", "0.067"), ("MAINFRAME_INTERVAL_MAX", "0.183"),
   ("ALIENSTERM_INTERVAL_MIN", "0.003"), ("ALIENSTERM_INTERVAL_MAX", "0.015"),
   ("MODEM_INTERVAL_MIN", "0.017"), ("MODEM_INTERVAL_MAX", "0.067"),
   ("WOPR_BEEPS_MIN", "1"), ("WOPR_BEEPS_MAX", "6"),
   ("MAINFRAME_BEEPS_MIN", "1"), ("MAINFRAME_BEEPS_MAX", "2"),
   ("ALIENSTERM_BEEPS_MIN", "1"), ("ALIENSTERM_BEEPS_MAX", "4"),
   ("MODEM_BEEPS_MIN", "1"), ("MODEM_BEEPS_MAX", "6"),
   ("SOUNDS_ENABLED", "0"), ("SOUNDS_DIR", "/usr/local/share/retro-sfx/sounds"),
   ("SOUNDS_DURATION_MIN", "5.0"), ("SOUNDS_DURATION_MAX", "30.0"),
   ("SOUNDS_INTERVAL_MIN", "1.0"), ("SOUNDS_INTERVAL_MAX", "10.0")]

/-- The interval-clamp step of load_config (lines 87-98) applied to one
value: a value parsing as a float is replaced by "1.0" when val < 1.0
and by "100.0" when val > 100.0; on a parse failure the except-branch
does nothing, so the malformed string is kept unchanged (the comment at
line 97 says the default should be kept, but the code keeps the
current, possibly malformed, value).  Comparisons follow IEEE float
semantics, so a NaN value takes neither branch and is also kept
unchanged. -/
def clampIntervalVal (s : String) : String :=
  match pyFloat s with
  | none => s
  | some v => if pfLt v 1 then "1.0" else if pfGt v 100 then "100.0" else s

/-- The beep-count-clamp step of load_config (lines 100-111) applied to
one value: an int-parsing value is clamped into [1,20]; a malformed
string is kept unchanged (same except-pass as the interval clamp). -/
def clampBeepsVal (s : String) : String :=
  match pyInt s with
  | none => s
  | some v => if v < 1 then "1" else if v > 20 then "20" else s

/-- load_config (lines 76-113): start from DEFAULT_CONFIG, overlay the
key=value entries read from the config file (already split on the first
equals sign and stripped, as lines 80-85 do), then clamp every
*_INTERVAL_MIN / *_INTERVAL_MAX and *_BEEPS_MIN / *_BEEPS_MAX value. -/
def load_config (fileEntries : List (String × String)) : Config :=
  let merged := fileEntries.foldl (fun acc kv => cfgSet acc kv.1 kv.2) DEFAULT_CONFIG
  merged.map (fun kv =>
    if strEndsWith kv.1 "_INTERVAL_MIN" || strEndsWith kv.1 "_INTERVAL_MAX" then
      (kv.1, clampIntervalVal kv.2)
    else if strEndsWith kv.1 "_BEEPS_MIN" || strEndsWith kv.1 "_BEEPS_MAX" then
      (kv.1, clampBeepsVal kv.2)
    else kv)

/-- Support of Python random.randint(a, b): a uniform integer with BOTH
endpoints included. -/
def randintSupport (a b : Nat) : Finset Nat := Finset.Icc a b

/-- pick_output_mode (lines 257-291) with the hardware probes
(has_pcspkr, has_audio), the already-parsed RANDOM_AUDIO_PERCENT and
the random.randint(0, 99) draw passed as parameters. -/
def pick_output_mode (output_mode : String) (pcspkrAvail audioAvail : Bool)
    (percent : Int) (draw : Nat) : String :=
  if strEq output_mode "pcspkr" then
    if pcspkrAvail then "pcspkr"
    else if audioAvail then "audio"
    else "none"
  else if strEq output_mode "audio" then
    if audioAvail then "audio"
    else if pcspkrAvail then "pcspkr"
    else "none"
  else if strEq output_mode "random" then
    if pcspkrAvail && audioAvail then
      if (draw : Int) < percent then "audio" else "pcspkr"
    else if audioAvail then "audio"
    else if pcspkrAvail then "pcspkr"
    else "none"
  else "none"

/-- The duration actually used by play_audio (lines 311-313): a
requested duration below 30 ms is raised to exactly 30 ms before the
tone is synthesized. -/
def play_audio_dur_ms (dur_ms : Nat) : Nat :=
  if dur_ms < 30 then 30 else dur_ms

/-- play_audio (lines 309-370): the fallible pieces are parameters —
whether audio hardware is detected, and the success of each aplay
attempt over the device fallback list (a failed or timed-out attempt
continues to the next device; exhausting the list returns False).  The
AUDIO_GAIN float conversion at line 319 raises ValueError on a
malformed value. -/
def play_audio (freq dur_ms : Nat) (config : Config) (audioAvail : Bool)
    (attempts : List Bool) : PyOutcome Bool :=
  let _ := play_audio_dur_ms dur_ms
  let _ := freq
  if !audioAvail then .ok false
  else
    match pyFloat (cfgGet config "AUDIO_GAIN" "1.0") with
    | none => .raised "ValueError"
    | some _ => .ok (attempts.any id)

/-- The call play_audio(freq, dur_ms) issued by play_pcspkr at line 306:
play_audio is defined at line 309 with three required positional
parameters (freq, dur_ms, config), so this two-argument call raises
TypeError in Python before the body of play_audio runs. -/
def play_audio_two_arg_call (freq dur_ms : Nat) : PyOutcome Bool :=
  let _ := freq
  let _ := dur_ms
  .raised "TypeError"

/-- play_pcspkr (lines 294-307): the beep subprocess result is a
parameter (true = the bounded beep invocation succeeded).  On failure
the code falls back by calling play_audio with two arguments. -/
def play_pcspkr (freq dur_ms : Nat) (beepOk : Bool) : PyOutcome Bool :=
  if beepOk then .ok true
  else play_audio_two_arg_call freq dur_ms

/-- What one play_sound call (lines 373-381) dispatches, given the
already-resolved output mode: a beeper call, an audio call, or nothing
(mode "none" silently skips). -/
inductive DispatchAction where
  | pcspkrCall (freq dur_ms : Nat) : DispatchAction
  | audioCall (freq dur_ms : Nat) : DispatchAction
  | noop : DispatchAction
  deriving DecidableEq, Repr

/-- play_sound (lines 373-381) as a dispatch decision over the resolved
mode. -/
def play_sound (freq dur_ms : Nat) (mode : String) : DispatchAction :=
  if strEq mode "pcspkr" then .pcspkrCall freq dur_ms
  else if strEq mode "audio" then .audioCall freq dur_ms
  else .noop

/-- The full variation list list(range(10)) used as the fallback. -/
def allVariations : List Int := (List.range 10).map Int.ofNat

/-- get_enabled_variations (lines 645-660): read the profile's
*_ENABLED_VARIATIONS value; "all" in any letter case gives 0-9;
otherwise the comma-separated integers with out-of-range entries
dropped; the full list on a parse failure or when the result is empty.
The Python list comprehension skips tokens that strip to empty before
converting, and int() raising on any token aborts the whole
comprehension into the except-branch. -/
def get_enabled_variations (config : Config) (profile : String) : List Int :=
  let key : String := ⟨profile.data.map charUpper ++ "_ENABLED_VARIATIONS".data⟩
  let value := trimChars (cfgGet config key "all").data
  if value.map charLower == "all".data then allVariations
  else
    match ((splitOnChar ',' value).filterMap
        (fun x => if trimChars x == [] then none else some (trimChars x)))
        |>.mapM pyIntChars with
    | none => allVariations
    | some parsed =>
      let variations := parsed.filter (fun v => 0 ≤ v && v ≤ 9)
      if variations = [] then allVariations else variations

/-- A beep: (frequency Hz, duration ms). -/
abbrev BeepSpec := Nat × Nat

/-- The ten base WOPR patterns (lines 666-677). -/
def wopr_base_patterns : List (List BeepSpec) :=
  [[(1200, 40), (900, 35), (1600, 50)],
   [(700, 70), (1100, 40), (700, 40)],
   [(300, 200)],
   [(1500, 30), (1700, 30), (1900, 40)],
   [(800, 60), (600, 80)],
   [(1000, 35), (1000, 35), (600, 120)],
   [(400, 140), (900, 50)],
   [(500, 25), (1200, 45), (800, 60)],
   [(600, 100)],
   [(1300, 20), (900, 50), (700, 80), (1100, 40)]]

/-- random.sample(l, k) modelled by the oracle of drawn positions: the
sampler picks k distinct indices of l and returns the elements at those
positions.  Validity of the oracle (distinct, in-bounds, k of them) is
stated as hypotheses where used. -/
def sampleByIndices {α : Type} (l : List α) (idxs : List Nat) : List α :=
  idxs.filterMap (fun i => l[i]?)

/-- The beep-sequence construction of pattern_wopr (lines 694-702): a
single-beep pattern is concatenated num_beeps times; a longer pattern
is replicated three times and sampled without replacement with
min(num_beeps, replicated length) draws. -/
def wopr_beeps_to_play (pattern : List BeepSpec) (num_beeps : Nat)
    (idxs : List Nat) : List BeepSpec :=
  if pattern.length = 1 then
    (List.replicate num_beeps pattern).flatten
  else
    sampleByIndices ((List.replicate 3 pattern).flatten) idxs

/-- The sequence actually iterated at line 705: beeps_to_play[:num_beeps]. -/
def wopr_beeps_played (pattern : List BeepSpec) (num_beeps : Nat)
    (idxs : List Nat) : List BeepSpec :=
  (wopr_beeps_to_play pattern num_beeps idxs).take num_beeps

/-- Python int() truncation of a rational toward zero. -/
def pyTrunc (q : ℚ) : Int :=
  if q < 0 then ⌈q⌉ else ⌊q⌋

/-- The jittered frequency of pattern_wopr (lines 707-708): base
frequency plus the drawn offset, clamped to [100, 3000]. -/
def wopr_jitter_freq (freq : Nat) (offset : Int) : Int :=
  max 100 (min 3000 ((freq : Int) + offset))

/-- The jittered duration of pattern_wopr (lines 711-713): base
duration times the drawn multiplier, truncated by int(), clamped to
[10, 800]. -/
def wopr_jitter_dur (dur_ms : Nat) (mult : ℚ) : Int :=
  max 10 (min 800 (pyTrunc ((dur_ms : ℚ) * mult)))

/-- The beep-count bounds read at lines 690-691: int() on the two
config strings, raising ValueError on a malformed value. -/
def wopr_beep_bounds (config : Config) : PyOutcome (Int × Int) :=
  match pyInt (cfgGet config "WOPR_BEEPS_MIN" "1") with
  | none => .raised "ValueError"
  | some bmin =>
    match pyInt (cfgGet config "WOPR_BEEPS_MAX" "6") with
    | none => .raised "ValueError"
    | some bmax => .ok (bmin, bmax)

/-- The post-pattern sleep of pattern_wopr (lines 721-724): float() on
the two interval strings (raising on a malformed value), then a uniform
draw u from [interval_min, interval_max] scaled by 60 into seconds.
The draw is the oracle parameter. -/
def wopr_pause_seconds (config : Config) (u : ℚ) : PyOutcome ℚ :=
  match pyFloat (cfgGet config "WOPR_INTERVAL_MIN" "0.003") with
  | none => .raised "ValueError"
  | some _ =>
    match pyFloat (cfgGet config "WOPR_INTERVAL_MAX" "0.025") with
    | none => .raised "ValueError"
    | some _ => .ok (u * 60)

/-- The post-pattern sleep of pattern_mainframe (lines 752-756), same
structure as the wopr one with the mainframe keys and defaults. -/
def mainframe_pause_seconds (config : Config) (u : ℚ) : PyOutcome ℚ :=
  match pyFloat (cfgGet config "MAINFRAME_INTERVAL_MIN" "0.067") with
  | none => .raised "ValueError"
  | some _ =>
    match pyFloat (cfgGet config "MAINFRAME_INTERVAL_MAX" "0.183") with
    | none => .raised "ValueError"
    | some _ => .ok (u * 60)

/-- The post-pattern sleep of pattern_aliensterm (lines 784-788), same
structure as the wopr one with the aliensterm keys and defaults. -/
def aliensterm_pause_seconds (config : Config) (u : ℚ) : PyOutcome ℚ :=
  match pyFloat (cfgGet config "ALIENSTERM_INTERVAL_MIN" "0.003") with
  | none => .raised "ValueError"
  | some _ =>
    match pyFloat (cfgGet config "ALIENSTERM_INTERVAL_MAX" "0.015") with
    | none => .raised "ValueError"
    | some _ => .ok (u * 60)

/-- The post-pattern sleep of pattern_modem (lines 886-890), same
structure as the wopr one with the modem keys and defaults. -/
def modem_pause_seconds (config : Config) (u : ℚ) : PyOutcome ℚ :=
  match pyFloat (cfgGet config "MODEM_INTERVAL_MIN" "0.017") with
  | none => .raised "ValueError"
  | some _ =>
    match pyFloat (cfgGet config "MODEM_INTERVAL_MAX" "0.067") with
    | none => .raised "ValueError"
    | some _ => .ok (u * 60)

/-- C1: the spec says a beeper backend failure advances to the audio
fallback and no backend dispatch ever raises past its call site, and
the code comment at line 305 states the same intent; but the fallback
call at line 306 passes only two arguments to the three-parameter
play_audio, so a failing beep command makes play_pcspkr raise TypeError
instead of returning the audio fallback result.  The successful path
returns True as specified. -/
theorem C1_play_pcspkr_fallback_raises :
    play_pcspkr 800 100 false = .raised "TypeError" ∧
    play_pcspkr 800 100 true = .ok true :=
  ⟨rfl, rfl⟩

/-- C2: the spec says a config value that fails to parse is reverted to
its built-in default and never aborts the tick, and the load_config
comment at line 97 states the same intent; but the except-branch keeps
the malformed string, so a tick in the wopr profile then raises
ValueError at line 690 when int() is applied to it.  The built-in
default "1" would have parsed fine, as the last conjunct shows. -/
theorem C2_malformed_beep_count_aborts_tick :
    cfgGet (load_config [("WOPR_BEEPS_MIN", "abc")]) "WOPR_BEEPS_MIN" "1" = "abc" ∧
    wopr_beep_bounds (load_config [("WOPR_BEEPS_MIN", "abc")]) = .raised "ValueError" ∧
    wopr_beep_bounds (load_config []) = .ok (1, 6) :=
  ⟨by decide, by decide, by decide⟩

/-- C7: for every base beep and drawn jitter (frequency offset in
[-200,200], duration multiplier in [0.2,5.0]), the dispatched frequency
lies in [100,3000] Hz and the dispatched duration in [10,800] ms. -/
theorem C7_wopr_jitter_bounds (freq dur_ms : Nat) (offset : Int) (mult : ℚ)
    (ho1 : -200 ≤ offset) (ho2 : offset ≤ 200)
    (hm1 : mkRat 1 5 ≤ mult) (hm2 : mult ≤ 5) :
    100 ≤ wopr_jitter_freq freq offset ∧ wopr_jitter_freq freq offset ≤ 3000 ∧
    10 ≤ wopr_jitter_dur dur_ms mult ∧ wopr_jitter_dur dur_ms mult ≤ 800 := by
  refine ⟨le_max_left _ _, ?_, le_max_left _ _, ?_⟩
  · exact max_le (by norm_num) (min_le_left _ _)
  · exact max_le (by norm_num) (min_le_left _ _)

/-- Witness for C7 at freq 1200 Hz, duration 40 ms, offset 0,
multiplier 1. -/
theorem C7_wopr_jitter_bounds_witness :
    100 ≤ wopr_jitter_freq 1200 0 ∧ wopr_jitter_freq 1200 0 ≤ 3000 ∧
    10 ≤ wopr_jitter_dur 40 1 ∧ wopr_jitter_dur 40 1 ≤ 800 :=
  C7_wopr_jitter_bounds 1200 40 0 1 (by decide) (by decide) (by decide) (by decide)

/-- C10: a requested duration below 30 ms is raised to exactly 30 ms
before the tone is synthesized, so audio mode never emits a tone
shorter than 30 ms although jitter may request down to 10 ms. -/
theorem C10_audio_min_duration (dur_ms : Nat) :
    (dur_ms < 30 → play_audio_dur_ms dur_ms = 30) ∧
    30 ≤ play_audio_dur_ms dur_ms ∧
    (30 ≤ dur_ms → play_audio_dur_ms dur_ms = dur_ms) := by
  unfold play_audio_dur_ms
  refine ⟨fun h => by simp [h], ?_, fun h => by simp [Nat.not_lt.mpr h]⟩
  split <;> omega

/-- Witness for C10 at the 10 ms jitter minimum and at 45 ms. -/
theorem C10_audio_min_duration_witness :
    play_audio_dur_ms 10 = 30 ∧ play_audio_dur_ms 45 = 45 :=
  ⟨(C10_audio_min_duration 10).1 (by decide),
   (C10_audio_min_duration 45).2.2 (by decide)⟩

/-- C3 counterexample: the claim says the random draw is a uniform
integer in the half-open range [0,99), but random.randint(0, 99)
includes both endpoints, so 99 is a possible draw yet lies outside
[0,99). -/
theorem C3_randint_draw_counterexample :
    99 ∈ randintSupport 0 99 ∧ 99 ∉ Finset.Ico (0 : Nat) 99 := by
  constructor
  · simp [randintSupport]
  · simp

/-- C3 (amended): output-mode resolution behaves as the claimed table
with the draw ranging over the inclusive interval [0,99]: pcspkr falls
back to audio then none; audio symmetrically; random with both outputs
gives audio exactly when the draw is below the percent, with one output
gives that one, with neither gives none; an unknown mode gives none;
and with neither output available every mode resolves to none and
play_sound dispatches nothing. -/
theorem C3_output_mode_resolution (p a : Bool) (pct : Int) (draw : Nat)
    (hdraw : draw ∈ randintSupport 0 99) :
    (pick_output_mode "pcspkr" p a pct draw =
      if p then "pcspkr" else if a then "audio" else "none") ∧
    (pick_output_mode "audio" p a pct draw =
      if a then "audio" else if p then "pcspkr" else "none") ∧
    (p = true → a = true →
      ((pick_output_mode "random" p a pct draw = "audio" ↔ (draw : Int) < pct) ∧
       (pick_output_mode "random" p a pct draw = "pcspkr" ↔ ¬((draw : Int) < pct)))) ∧
    (p = true → a = false → pick_output_mode "random" p a pct draw = "pcspkr") ∧
    (p = false → a = true → pick_output_mode "random" p a pct draw = "audio") ∧
    (∀ mode, strEq mode "pcspkr" = false → strEq mode "audio" = false →
      strEq mode "random" = false → pick_output_mode mode p a pct draw = "none") ∧
    (∀ mode, p = false → a = false →
      pick_output_mode mode p a pct draw = "none" ∧
      play_sound 440 100 (pick_output_mode mode p a pct draw) = .noop) := by
  have e1 : strEq "pcspkr" "pcspkr" = true := by decide
  have e2 : strEq "audio" "pcspkr" = false := by decide
  have e3 : strEq "audio" "audio" = true := by decide
  have e4 : strEq "random" "pcspkr" = false := by decide
  have e5 : strEq "random" "audio" = false := by decide
  have e6 : strEq "random" "random" = true := by decide
  have e7 : strEq "none" "pcspkr" = false := by decide
  have e8 : strEq "none" "audio" = false := by decide
  refine ⟨?_, ?_, ?_, ?_, ?_, ?_, ?_⟩
  · simp [pick_output_mode, e1]
  · simp [pick_output_mode, e2, e3]
  · intro hp ha
    subst hp; subst ha
    by_cases hlt : (draw : Int) < pct <;>
      simp [pick_output_mode, e4, e5, e6, hlt]
  · intro hp ha
    subst hp; subst ha
    simp [pick_output_mode, e4, e5, e6]
  · intro hp ha
    subst hp; subst ha
    simp [pick_output_mode, e4, e5, e6]
  · intro mode h1 h2 h3
    simp [pick_output_mode, h1, h2, h3]
  · intro mode hp ha
    subst hp; subst ha
    cases h1 : strEq mode "pcspkr" <;> cases h2 : strEq mode "audio" <;>
      cases h3 : strEq mode "random" <;>
      simp [pick_output_mode, play_sound, h1, h2, h3, e7, e8]

/-- Witness for C3 at draw 3 with only the beeper available. -/
theorem C3_output_mode_resolution_witness :
    3 ∈ randintSupport 0 99 ∧ pick_output_mode "pcspkr" true false 70 3 = "pcspkr" :=
  ⟨by simp [randintSupport],
   by simpa using (C3_output_mode_resolution true false 70 3 (by simp [randintSupport])).1⟩

/-- Configuration used by the concrete quiet-window scenarios: quiet
hours enabled, start 22:00, end 07:00. -/
def quiet_example_config : Config :=
  [("QUIET_ENABLED", "1"), ("QUIET_START", "22:00"), ("QUIET_END", "07:00")]

/-- C4: with quiet hours enabled and well-formed bounds, the gate is
always quiet when start = end, quiet iff start ≤ now < end when
start < end, quiet iff now ≥ start or now < end when the window crosses
midnight; with quiet hours disabled it is never quiet.  Concretely for
start 22:00 and end 07:00 it is quiet at 23:30 and 06:59 and not quiet
at 12:00 and 07:00. -/
theorem C4_quiet_hours_gate (config : Config) (nowMin s e : Int)
    (hen : cfgGetOpt config "QUIET_ENABLED" = some "1")
    (hs : to_minutes (cfgGet config "QUIET_START" "22:00") = some s)
    (he : to_minutes (cfgGet config "QUIET_END" "07:00") = some e) :
    (s = e → in_quiet_hours config nowMin = some true) ∧
    (s < e → (in_quiet_hours config nowMin = some true ↔ s ≤ nowMin ∧ nowMin < e)) ∧
    (e < s → (in_quiet_hours config nowMin = some true ↔ nowMin ≥ s ∨ nowMin < e)) ∧
    (∀ (cfg2 : Config) (n2 : Int), cfgGetOpt cfg2 "QUIET_ENABLED" ≠ some "1" →
      in_quiet_hours cfg2 n2 = some false) ∧
    in_quiet_hours quiet_example_config (23 * 60 + 30) = some true ∧
    in_quiet_hours quiet_example_config (6 * 60 + 59) = some true ∧
    in_quiet_hours quiet_example_config (12 * 60) = some false ∧
    in_quiet_hours quiet_example_config (7 * 60) = some false := by
  refine ⟨?_, ?_, ?_, ?_, by decide, by decide, by decide, by decide⟩
  · intro hse
    simp [in_quiet_hours, hen, hs, he, hse]
  · intro hlt
    simp [in_quiet_hours, hen, hs, he, ne_of_lt hlt, hlt]
  · intro hgt
    simp [in_quiet_hours, hen, hs, he, ne_of_gt hgt, not_lt_of_gt hgt]
  · intro cfg2 n2 h2
    simp [in_quiet_hours, h2]

/-- Witness for C4: the 22:00-07:00 window crossing midnight is quiet
at 23:30. -/
theorem C4_quiet_hours_gate_witness :
    in_quiet_hours quiet_example_config 1410 = some true :=
  ((C4_quiet_hours_gate quiet_example_config 1410 1320 420 (by decide) (by decide)
    (by decide)).2.2.1 (by decide)).mpr (Or.inl (by decide))

/-- Structure of a get_enabled_variations result: either the full
fallback list, or a non-empty range-filtered parse result. -/
lemma get_enabled_variations_cases (config : Config) (profile : String) :
    get_enabled_variations config profile = allVariations ∨
    ∃ parsed : List Int,
      get_enabled_variations config profile
        = parsed.filter (fun v => 0 ≤ v && v ≤ 9) ∧
      parsed.filter (fun v => 0 ≤ v && v ≤ 9) ≠ [] := by
  unfold get_enabled_variations
  dsimp only
  split
  · exact Or.inl rfl
  · split
    · exact Or.inl rfl
    · split
      · exact Or.inl rfl
      · rename_i parsed heq hne
        exact Or.inr ⟨parsed, rfl, hne⟩

/-- C5: the enabled-variation list is "all" in any case giving 0-9,
else the comma-separated integers with out-of-range entries dropped,
with the full list restored on a parse failure or an empty result, so
the outcome is always a non-empty sublist of 0-9; together with the
spec's concrete parsing scenarios. -/
theorem C5_enabled_variations (config : Config) (profile : String) :
    (get_enabled_variations config profile ≠ [] ∧
     ∀ v ∈ get_enabled_variations config profile, 0 ≤ v ∧ v ≤ 9) ∧
    ((trimChars (cfgGet config
        ⟨profile.data.map charUpper ++ "_ENABLED_VARIATIONS".data⟩ "all").data).map
          charLower = "all".data →
      get_enabled_variations config profile = allVariations) ∧
    get_enabled_variations [("WOPR_ENABLED_VARIATIONS", "ALL")] "wopr" = allVariations ∧
    get_enabled_variations [("WOPR_ENABLED_VARIATIONS", "2,5")] "wopr" = [2, 5] ∧
    get_enabled_variations [("WOPR_ENABLED_VARIATIONS", "3,99,-1")] "wopr" = [3] ∧
    get_enabled_variations [("WOPR_ENABLED_VARIATIONS", "")] "wopr" = allVariations ∧
    get_enabled_variations [("WOPR_ENABLED_VARIATIONS", "x,5")] "wopr" = allVariations ∧
    get_enabled_variations [("WOPR_ENABLED_VARIATIONS", "99")] "wopr" = allVariations := by
  have hall : allVariations ≠ [] ∧ ∀ v ∈ allVariations, 0 ≤ v ∧ v ≤ 9 := by decide
  refine ⟨?_, ?_, by decide, by decide, by decide, by decide, by decide, by decide⟩
  · rcases get_enabled_variations_cases config profile with h | ⟨parsed, h, hne⟩
    · rw [h]; exact hall
    · rw [h]
      refine ⟨hne, ?_⟩
      intro v hv
      have hp := (List.mem_filter.mp hv).2
      simp only [Bool.and_eq_true, decide_eq_true_eq] at hp
      exact hp
  · intro h
    unfold get_enabled_variations
    dsimp only
    rw [if_pos]
    exact beq_iff_eq.mpr h

/-- Witness for C5 on a concrete config and profile. -/
theorem C5_enabled_variations_witness :
    get_enabled_variations [("WOPR_ENABLED_VARIATIONS", "2,5")] "wopr" ≠ [] :=
  (C5_enabled_variations [("WOPR_ENABLED_VARIATIONS", "2,5")] "wopr").1.1

/-- C8 counterexample: the value "nan" parses as a Python float, yet
load_config does not clamp it into [1,100] — NaN compares false against
both 1.0 and 100.0, so neither clamp branch fires and the snapshot
keeps "nan", whose parse is NaN, which is no finite value at all, let
alone one in [1,100]. -/
theorem C8_nan_escapes_clamp_counterexample :
    pyFloat "nan" = some PyFloatVal.nan ∧
    cfgGet (load_config [("WOPR_INTERVAL_MIN", "nan")]) "WOPR_INTERVAL_MIN" "0.003"
      = "nan" ∧
    pfLt PyFloatVal.nan 1 = false ∧ pfGt PyFloatVal.nan 100 = false ∧
    (∀ q : ℚ, PyFloatVal.nan ≠ PyFloatVal.finite q) :=
  ⟨by decide, by decide, rfl, rfl, fun q h => PyFloatVal.noConfusion h⟩

/-- A clamped interval value that still parses, and is not NaN, is a
finite number in [1,100]. -/
lemma clampIntervalVal_in_range {s : String} {v : PyFloatVal}
    (h : pyFloat (clampIntervalVal s) = some v) (hnan : v ≠ PyFloatVal.nan) :
    ∃ q : ℚ, v = PyFloatVal.finite q ∧ 1 ≤ q ∧ q ≤ 100 := by
  unfold clampIntervalVal at h
  cases hs : pyFloat s with
  | none => rw [hs] at h; rw [hs] at h; exact absurd h (by simp)
  | some w =>
    rw [hs] at h
    dsimp only at h
    by_cases h1 : pfLt w 1 = true
    · rw [if_pos h1] at h
      have h10 : pyFloat "1.0" = some (PyFloatVal.finite 1) := by decide
      rw [h10] at h
      obtain rfl := Option.some.inj h
      exact ⟨1, rfl, le_refl 1, by norm_num⟩
    · rw [if_neg h1] at h
      by_cases h2 : pfGt w 100 = true
      · rw [if_pos h2] at h
        have h100 : pyFloat "100.0" = some (PyFloatVal.finite 100) := by decide
        rw [h100] at h
        obtain rfl := Option.some.inj h
        exact ⟨100, rfl, by norm_num, le_refl 100⟩
      · rw [if_neg h2] at h
        rw [hs] at h
        obtain rfl := Option.some.inj h
        cases w with
        | finite q =>
          simp only [pfLt, decide_eq_true_eq] at h1
          simp only [pfGt, decide_eq_true_eq] at h2
          exact ⟨q, rfl, not_lt.mp h1, not_lt.mp h2⟩
        | pinf => exact absurd rfl h2
        | ninf => exact absurd rfl h1
        | nan => exact absurd rfl hnan

/-- C8 (amended): after load_config, every *_INTERVAL_MIN /
*_INTERVAL_MAX value that parses as a number other than NaN is a
finite value in [1,100] minutes (NaN parses but fails both clamp
comparisons and survives unchanged); and for each of the four
profiles, with bounds parsing to finite values with min ≤ max and a
uniform draw u from [min,max], the post-pattern sleep is u·60 seconds,
which lies within [min·60, max·60]. -/
theorem C8_interval_clamp_and_sleep :
    (∀ (fileEntries : List (String × String)), ∀ kv ∈ load_config fileEntries,
      (strEndsWith kv.1 "_INTERVAL_MIN" = true ∨ strEndsWith kv.1 "_INTERVAL_MAX" = true) →
      ∀ v : PyFloatVal, pyFloat kv.2 = some v → v ≠ PyFloatVal.nan →
      ∃ q : ℚ, v = PyFloatVal.finite q ∧ 1 ≤ q ∧ q ≤ 100) ∧
    (∀ (config : Config) (a b u : ℚ),
      pyFloat (cfgGet config "WOPR_INTERVAL_MIN" "0.003") = some (PyFloatVal.finite a) →
      pyFloat (cfgGet config "WOPR_INTERVAL_MAX" "0.025") = some (PyFloatVal.finite b) →
      a ≤ b → a ≤ u → u ≤ b →
      wopr_pause_seconds config u = .ok (u * 60) ∧
      a * 60 ≤ u * 60 ∧ u * 60 ≤ b * 60) ∧
    (∀ (config : Config) (a b u : ℚ),
      pyFloat (cfgGet config "MAINFRAME_INTERVAL_MIN" "0.067") = some (PyFloatVal.finite a) →
      pyFloat (cfgGet config "MAINFRAME_INTERVAL_MAX" "0.183") = some (PyFloatVal.finite b) →
      a ≤ b → a ≤ u → u ≤ b →
      mainframe_pause_seconds config u = .ok (u * 60) ∧
      a * 60 ≤ u * 60 ∧ u * 60 ≤ b * 60) ∧
    (∀ (config : Config) (a b u : ℚ),
      pyFloat (cfgGet config "ALIENSTERM_INTERVAL_MIN" "0.003") = some (PyFloatVal.finite a) →
      pyFloat (cfgGet config "ALIENSTERM_INTERVAL_MAX" "0.015") = some (PyFloatVal.finite b) →
      a ≤ b → a ≤ u → u ≤ b →
      aliensterm_pause_seconds config u = .ok (u * 60) ∧
      a * 60 ≤ u * 60 ∧ u * 60 ≤ b * 60) ∧
    (∀ (config : Config) (a b u : ℚ),
      pyFloat (cfgGet config "MODEM_INTERVAL_MIN" "0.017") = some (PyFloatVal.finite a) →
      pyFloat (cfgGet config "MODEM_INTERVAL_MAX" "0.067") = some (PyFloatVal.finite b) →
      a ≤ b → a ≤ u → u ≤ b →
      modem_pause_seconds config u = .ok (u * 60) ∧
      a * 60 ≤ u * 60 ∧ u * 60 ≤ b * 60) := by
  refine ⟨?_, ?_, ?_, ?_, ?_⟩
  · intro fileEntries kv hmem hsuffix v hv hnan
    unfold load_config at hmem
    obtain ⟨kv0, hkv0, heq⟩ := List.mem_map.mp hmem
    by_cases hc : (strEndsWith kv0.1 "_INTERVAL_MIN" || strEndsWith kv0.1 "_INTERVAL_MAX") = true
    · rw [if_pos hc] at heq
      subst heq
      exact clampIntervalVal_in_range hv hnan
    · rw [if_neg hc] at heq
      simp only [Bool.or_eq_true, not_or, Bool.not_eq_true] at hc
      exfalso
      have hfst : kv.1 = kv0.1 := by
        by_cases hb : (strEndsWith kv0.1 "_BEEPS_MIN" || strEndsWith kv0.1 "_BEEPS_MAX") = true
        · rw [if_pos hb] at heq; rw [← heq]
        · rw [if_neg hb] at heq; rw [← heq]
      rw [hfst] at hsuffix
      rcases hsuffix with h | h
      · rw [hc.1] at h; cases h
      · rw [hc.2] at h; cases h
  · intro config a b u ha hb hab hau hub
    unfold wopr_pause_seconds
    rw [ha, hb]
    exact ⟨rfl, mul_le_mul_of_nonneg_right hau (by norm_num),
      mul_le_mul_of_nonneg_right hub (by norm_num)⟩
  · intro config a b u ha hb hab hau hub
    unfold mainframe_pause_seconds
    rw [ha, hb]
    exact ⟨rfl, mul_le_mul_of_nonneg_right hau (by norm_num),
      mul_le_mul_of_nonneg_right hub (by norm_num)⟩
  · intro config a b u ha hb hab hau hub
    unfold aliensterm_pause_seconds
    rw [ha, hb]
    exact ⟨rfl, mul_le_mul_of_nonneg_right hau (by norm_num),
      mul_le_mul_of_nonneg_right hub (by norm_num)⟩
  · intro config a b u ha hb hab hau hub
    unfold modem_pause_seconds
    rw [ha, hb]
    exact ⟨rfl, mul_le_mul_of_nonneg_right hau (by norm_num),
      mul_le_mul_of_nonneg_right hub (by norm_num)⟩

/-- Witness for C8: a configured 250-minute interval is clamped to a
finite 100, and under the default config (whose sub-minute defaults
clamp up to 1.0) each of the four profiles sleeps exactly 60 seconds
on a draw of 1. -/
theorem C8_interval_clamp_and_sleep_witness :
    (∃ q : ℚ, PyFloatVal.finite 100 = PyFloatVal.finite q ∧ 1 ≤ q ∧ q ≤ 100) ∧
    wopr_pause_seconds (load_config []) 1 = .ok (1 * 60) ∧
    mainframe_pause_seconds (load_config []) 1 = .ok (1 * 60) ∧
    aliensterm_pause_seconds (load_config []) 1 = .ok (1 * 60) ∧
    modem_pause_seconds (load_config []) 1 = .ok (1 * 60) := by
  have h1 := C8_interval_clamp_and_sleep.1 [("WOPR_INTERVAL_MIN", "250")]
    ("WOPR_INTERVAL_MIN", "100.0") (by decide) (Or.inl (by decide))
    (PyFloatVal.finite 100) (by decide) (by decide)
  have h2 := C8_interval_clamp_and_sleep.2.1 (load_config []) 1 1 1
    (by decide) (by decide) (by decide) (by decide) (by decide)
  have h3 := C8_interval_clamp_and_sleep.2.2.1 (load_config []) 1 1 1
    (by decide) (by decide) (by decide) (by decide) (by decide)
  have h4 := C8_interval_clamp_and_sleep.2.2.2.1 (load_config []) 1 1 1
    (by decide) (by decide) (by decide) (by decide) (by decide)
  have h5 := C8_interval_clamp_and_sleep.2.2.2.2 (load_config []) 1 1 1
    (by decide) (by decide) (by decide) (by decide) (by decide)
  exact ⟨h1, h2.1, h3.1, h4.1, h5.1⟩

/-- Counting in a position-sample: occurrences of b among the picked
elements equal the number of picked indices holding b. -/
lemma count_filterMap_get {α : Type} [BEq α] [LawfulBEq α] (l : List α) (b : α) :
    ∀ idxs : List Nat,
      ((idxs.filterMap (fun i => l[i]?)).count b)
        = (idxs.filter (fun i => l[i]? == some b)).length
  | [] => rfl
  | i :: t => by
    cases h : l[i]? with
    | none =>
      simp [List.filterMap_cons, h, List.filter_cons, beq_iff_eq,
        count_filterMap_get l b t]
    | some a =>
      by_cases hab : a = b
      · subst hab
        simp [List.filterMap_cons, h, List.filter_cons, List.count_cons, beq_iff_eq,
          count_filterMap_get l a t]
      · simp [List.filterMap_cons, h, List.filter_cons, List.count_cons, hab,
          beq_iff_eq, count_filterMap_get l b t]

/-- A nodup index list filtered by p is no longer than the filtered
range, when p only holds below n. -/
lemma length_filter_le_range {p : Nat → Bool} {idxs : List Nat} (h : idxs.Nodup)
    (n : Nat) (hp : ∀ i, p i = true → i < n) :
    (idxs.filter p).length ≤ ((List.range n).filter p).length := by
  have hsub : idxs.filter p ⊆ (List.range n).filter p := by
    intro x hx
    have hx2 := List.mem_filter.mp hx
    exact List.mem_filter.mpr ⟨List.mem_range.mpr (hp x hx2.2), hx2.2⟩
  exact ((h.filter p).subperm hsub).length_le

/-- The number of positions of a list holding b is the count of b. -/
lemma length_filter_range_get {α : Type} [BEq α] [LawfulBEq α] :
    ∀ (l : List α) (b : α),
      (((List.range l.length).filter (fun i => l[i]? == some b)).length)
        = l.count b
  | [], _ => rfl
  | x :: t, b => by
    rw [List.length_cons, List.range_succ_eq_map]
    by_cases hxb : x = b
    · subst hxb
      simp [List.filter_cons, List.filter_map, Function.comp_def, List.count_cons,
        beq_iff_eq, length_filter_range_get t x]
    · simp [List.filter_cons, List.filter_map, Function.comp_def, List.count_cons,
        hxb, beq_iff_eq, length_filter_range_get t b]

/-- A valid position-sample has exactly as many elements as indices. -/
lemma sampleByIndices_length {α : Type} (l : List α) :
    ∀ idxs : List Nat, (∀ i ∈ idxs, i < l.length) →
      (sampleByIndices l idxs).length = idxs.length
  | [], _ => rfl
  | i :: t, hlt => by
    have hi : i < l.length := hlt i (by simp)
    obtain ⟨a, ha⟩ : ∃ a, l[i]? = some a := by
      rw [List.getElem?_eq_getElem hi]
      exact ⟨_, rfl⟩
    simp only [sampleByIndices, List.filterMap_cons, ha, List.length_cons]
    have := sampleByIndices_length l t (fun j hj => hlt j (by simp [hj]))
    simpa [sampleByIndices] using this

/-- Flattening n copies of a one-element list is n copies of the
element. -/
lemma flatten_replicate_singleton {α : Type} (b : α) :
    ∀ n : Nat, (List.replicate n [b]).flatten = List.replicate n b
  | 0 => rfl
  | n + 1 => by
    simp [List.replicate_succ, flatten_replicate_singleton b n]

/-- Counting in the flattening of k copies of a list multiplies the
count by k. -/
lemma count_flatten_replicate {α : Type} [BEq α] [LawfulBEq α] (pattern : List α)
    (b : α) : ∀ k : Nat,
      ((List.replicate k pattern).flatten).count b = k * pattern.count b
  | 0 => by simp
  | k + 1 => by
    simp [List.replicate_succ, List.count_append,
      count_flatten_replicate pattern b k, Nat.succ_mul, Nat.add_comm]

/-- C6: with a single-beep base pattern the played sequence is that
beep repeated beep-count times; otherwise it is a
sample-without-replacement of min(beep-count, 3·pattern-length)
elements from the pattern replicated three times, so every beep occurs
at most three times its multiplicity in the base pattern. -/
theorem C6_wopr_beep_sampling (pattern : List BeepSpec) (num_beeps : Nat)
    (idxs : List Nat)
    (hpat : pattern ∈ wopr_base_patterns)
    (hnd : idxs.Nodup)
    (hbound : ∀ i ∈ idxs, i < 3 * pattern.length)
    (hk : idxs.length = min num_beeps (3 * pattern.length)) :
    (∀ b : BeepSpec, pattern = [b] →
      wopr_beeps_played pattern num_beeps idxs = List.replicate num_beeps b) ∧
    (pattern.length ≠ 1 →
      (wopr_beeps_played pattern num_beeps idxs).length
          = min num_beeps (3 * pattern.length) ∧
      ∀ b : BeepSpec, (wopr_beeps_played pattern num_beeps idxs).count b
          ≤ 3 * pattern.count b) := by
  have hextlen : ((List.replicate 3 pattern).flatten).length = 3 * pattern.length := by
    simp [List.length_flatten, List.map_replicate, List.sum_replicate]
    omega
  constructor
  · intro b hb
    subst hb
    unfold wopr_beeps_played wopr_beeps_to_play
    simp [flatten_replicate_singleton, List.take_replicate]
  · intro hne
    have hsample : wopr_beeps_to_play pattern num_beeps idxs
        = sampleByIndices ((List.replicate 3 pattern).flatten) idxs := by
      unfold wopr_beeps_to_play
      rw [if_neg hne]
    have hslen : (wopr_beeps_to_play pattern num_beeps idxs).length
        = min num_beeps (3 * pattern.length) := by
      rw [hsample, sampleByIndices_length _ idxs (fun i hi => by
        rw [hextlen]; exact hbound i hi), hk]
    have htake : wopr_beeps_played pattern num_beeps idxs
        = wopr_beeps_to_play pattern num_beeps idxs := by
      unfold wopr_beeps_played
      exact List.take_of_length_le (by rw [hslen]; exact Nat.min_le_left _ _)
    constructor
    · rw [htake, hslen]
    · intro b
      rw [htake, hsample]
      calc (sampleByIndices ((List.replicate 3 pattern).flatten) idxs).count b
          = (idxs.filter
              (fun i => ((List.replicate 3 pattern).flatten)[i]? == some b)).length :=
            count_filterMap_get _ b idxs
        _ ≤ (((List.range ((List.replicate 3 pattern).flatten).length).filter
              (fun i => ((List.replicate 3 pattern).flatten)[i]? == some b))).length := by
            refine length_filter_le_range hnd _ (fun i hp => ?_)
            have := List.getElem?_eq_some_iff.mp (beq_iff_eq.mp hp)
            exact this.1
        _ = ((List.replicate 3 pattern).flatten).count b :=
            length_filter_range_get _ b
        _ = 3 * pattern.count b := count_flatten_replicate pattern b 3

/-- Witness for C6 on base pattern 4 with three draws from the six
replicated slots. -/
theorem C6_wopr_beep_sampling_witness :
    (wopr_beeps_played [(800, 60), (600, 80)] 3 [0, 3, 2]).count (800, 60)
      ≤ 3 * ([(800, 60), (600, 80)] : List BeepSpec).count (800, 60) :=
  ((C6_wopr_beep_sampling [(800, 60), (600, 80)] 3 [0, 3, 2] (by decide) (by decide)
    (by decide) (by decide)).2 (by decide)).2 (800, 60)

end RetroSfx
